import Mathlib

/- Formal model of generate_icon.py.

   The script draws an app icon (a rounded-rectangle background with a
   stylized brain glyph) at a fixed list of pixel sizes, writes the PNG
   files and a Contents.json manifest into an icon-set directory, copies
   a remapped subset into a temporary directory and packages it with the
   external iconutil tool.

   The drawing calls are modelled as a list of DrawOp records carrying the
   exact geometry the script computes.  Python floats are modelled as exact
   fractions: for every size the script ever renders (16 up to 1024 and the
   doubled variants) none of the float intermediates lands on an integer
   boundary, so int() truncation agrees with exact fraction truncation and
   the model is faithful to the float computation. -/

/-- Exact fraction num / den.  Fractions are kept unnormalized so that all
    arithmetic is plain integer arithmetic; every fraction this development
    constructs has a positive denominator, which the comparison operations
    assume. -/
structure Frac where
  num : ℤ
  den : ℤ
deriving DecidableEq

instance : NatCast Frac := ⟨fun n => ⟨(n : ℤ), 1⟩⟩

instance : IntCast Frac := ⟨fun n => ⟨n, 1⟩⟩

instance : OfNat Frac n := ⟨⟨(n : ℤ), 1⟩⟩

instance : Add Frac := ⟨fun a b => ⟨a.num * b.den + b.num * a.den, a.den * b.den⟩⟩

instance : Sub Frac := ⟨fun a b => ⟨a.num * b.den - b.num * a.den, a.den * b.den⟩⟩

instance : Mul Frac := ⟨fun a b => ⟨a.num * b.num, a.den * b.den⟩⟩

instance : Div Frac := ⟨fun a b => ⟨a.num * b.den, a.den * b.num⟩⟩

/-- Comparison a ≤ b by cross multiplication (positive denominators). -/
def Frac.ble (a b : Frac) : Bool := decide (a.num * b.den ≤ b.num * a.den)

/-- Comparison a < b by cross multiplication (positive denominators). -/
def Frac.blt (a b : Frac) : Bool := decide (a.num * b.den < b.num * a.den)

/-- Equality of the represented rational values, by cross multiplication. -/
def Frac.beqv (a b : Frac) : Bool := decide (a.num * b.den = b.num * a.den)

/-- Maximum of two fractions under the value order. -/
def Frac.fmax (a b : Frac) : Frac := if Frac.ble a b then b else a

/-- The rational value a fraction stands for. -/
def Frac.toRat (a : Frac) : ℚ := (a.num : ℚ) / (a.den : ℚ)

/-- RGB color triple, as used by the PIL fill arguments. -/
structure Color where
  r : ℕ
  g : ℕ
  b : ℕ
deriving DecidableEq

/-- Module constant CLAUDE_ORANGE = (217, 119, 87). -/
def CLAUDE_ORANGE : Color := ⟨217, 119, 87⟩

/-- Module constant WHITE = (255, 255, 255). -/
def WHITE : Color := ⟨255, 255, 255⟩

/-- Module constant SIZES: the icon sizes iterated by the driver. -/
def SIZES : List ℕ := [16, 32, 64, 128, 256, 512, 1024]

/-- Python int() applied to an exact fraction: truncation toward zero
    (Int.tdiv truncates toward zero; the denominator is positive). -/
def pyInt (q : Frac) : ℤ := q.num.tdiv q.den

/-- One PIL ImageDraw call recorded with its geometry and fill color. -/
inductive DrawOp where
  | ellipse (x0 y0 x1 y1 : Frac) (fill : Color)
  | line (x0 y0 x1 y1 : Frac) (fill : Color) (width : Frac)
  | arc (x0 y0 x1 y1 : Frac) (startAngle endAngle : Frac) (fill : Color) (width : Frac)
  | rounded_rectangle (x0 y0 x1 y1 : Frac) (radius : Frac) (fill : Color)
deriving DecidableEq

/-- The sequence of drawing calls issued by draw_brain_icon(draw, size, color),
    transcribed from the source: two hemisphere ellipses, the stem ellipse,
    the central fissure line and three arcs per hemisphere.  The fold lines
    use the module constant CLAUDE_ORANGE (the variable line_color in the
    source), not the color parameter. -/
def draw_brain_icon (size : ℕ) (color : Color) : List DrawOp :=
  let s : Frac := (size : Frac) / 100
  let cx : Frac := (size : Frac) / 2
  let cy : Frac := (size : Frac) / 2
  let padding : ℤ := pyInt (20 * s)
  let brain_width : ℤ := (size : ℤ) - padding * 2
  let brain_height : ℤ := pyInt ((brain_width : Frac) * (85 / 100))
  let top_y : Frac := cy - ((brain_height.fdiv 2 : ℤ) : Frac) + ((pyInt (5 * s) : ℤ) : Frac)
  let left_x : ℤ := padding
  let stem_width : ℤ := pyInt (12 * s)
  let stem_height : ℤ := pyInt (15 * s)
  let line_color : Color := CLAUDE_ORANGE
  let line_width : Frac := ((max 1 (pyInt (2 * s)) : ℤ) : Frac)
  [DrawOp.ellipse (left_x : Frac) top_y
     (cx + ((pyInt (5 * s) : ℤ) : Frac)) (top_y + (brain_height : Frac)) color,
   DrawOp.ellipse (cx - ((pyInt (5 * s) : ℤ) : Frac)) top_y
     ((size : Frac) - (padding : Frac)) (top_y + (brain_height : Frac)) color,
   DrawOp.ellipse (cx - ((stem_width.fdiv 2 : ℤ) : Frac))
     (top_y + (brain_height : Frac) - ((pyInt (10 * s) : ℤ) : Frac))
     (cx + ((stem_width.fdiv 2 : ℤ) : Frac))
     (top_y + (brain_height : Frac) + (stem_height : Frac)) color,
   DrawOp.line cx (top_y + ((pyInt (10 * s) : ℤ) : Frac))
     cx (top_y + (brain_height : Frac) - ((pyInt (15 * s) : ℤ) : Frac)) line_color line_width]
  ++ ([(25 : Frac) / 100, 50 / 100, 70 / 100].map fun offset =>
      let y_pos : Frac := top_y + ((pyInt ((brain_height : Frac) * offset) : ℤ) : Frac)
      DrawOp.arc ((left_x : Frac) + ((pyInt (5 * s) : ℤ) : Frac))
        (y_pos - ((pyInt (10 * s) : ℤ) : Frac))
        (cx - ((pyInt (5 * s) : ℤ) : Frac))
        (y_pos + ((pyInt (10 * s) : ℤ) : Frac)) 0 180 line_color line_width)
  ++ ([(25 : Frac) / 100, 50 / 100, 70 / 100].map fun offset =>
      let y_pos : Frac := top_y + ((pyInt ((brain_height : Frac) * offset) : ℤ) : Frac)
      DrawOp.arc (cx + ((pyInt (5 * s) : ℤ) : Frac))
        (y_pos - ((pyInt (10 * s) : ℤ) : Frac))
        ((size : Frac) - (padding : Frac) - ((pyInt (5 * s) : ℤ) : Frac))
        (y_pos + ((pyInt (10 * s) : ℤ) : Frac)) 0 180 line_color line_width)

/-- The drawing calls of create_icon(size, path): the rounded-rectangle
    background filled with CLAUDE_ORANGE followed by the brain glyph in
    WHITE. -/
def create_icon_ops (size : ℕ) : List DrawOp :=
  let corner_radius : ℤ := pyInt ((size : Frac) * (22 / 100))
  DrawOp.rounded_rectangle 0 0 ((size : Frac) - 1) ((size : Frac) - 1)
    (corner_radius : Frac) CLAUDE_ORANGE :: draw_brain_icon size WHITE

/-- The in-memory image produced by create_icon: Image.new allocates a
    size x size RGBA canvas, then the drawing calls are applied. -/
structure Image where
  width : ℕ
  height : ℕ
  ops : List DrawOp
deriving DecidableEq

/-- create_icon(size, output_path) builds a size x size canvas and draws
    the background and glyph on it. -/
def create_icon (size : ℕ) : Image :=
  { width := size, height := size, ops := create_icon_ops size }

/- Rasterization semantics.  An idealized pixel model for the PIL calls the
   script issues: a pixel (px, py) is covered by a fill when its coordinate
   point lies inside the drawn region, with boundaries included for fills.
   Arcs are modelled for the only parameters the script passes
   (start = 0, end = 180, degrees measured clockwise from three oclock in
   image coordinates, hence the lower half of the ellipse), as the band
   between the ellipse and the ellipse shrunk inward by the stroke width.
   Lines are drawn as a thick segment.  Later calls overwrite earlier ones;
   every fill is fully opaque (alpha 255). -/

/-- Square of a fraction. -/
def sqr (x : Frac) : Frac := x * x

/-- Membership in the filled ellipse of bounding box [x0, y0, x1, y1]. -/
def in_ellipse (x0 y0 x1 y1 px py : Frac) : Bool :=
  let ecx := (x0 + x1) / 2
  let ecy := (y0 + y1) / 2
  let rx := (x1 - x0) / 2
  let ry := (y1 - y0) / 2
  Frac.ble (sqr ((px - ecx) * ry) + sqr ((py - ecy) * rx)) (sqr (rx * ry))

/-- Strict interior of the same ellipse, for the inner edge of arc bands. -/
def in_ellipse_interior (x0 y0 x1 y1 px py : Frac) : Bool :=
  let ecx := (x0 + x1) / 2
  let ecy := (y0 + y1) / 2
  let rx := (x1 - x0) / 2
  let ry := (y1 - y0) / 2
  Frac.blt (sqr ((px - ecx) * ry) + sqr ((py - ecy) * rx)) (sqr (rx * ry))

/-- Membership in the filled rounded rectangle [x0, y0, x1, y1] with corner
    radius r: inside the rectangle and, within a corner square, inside the
    quarter disc. -/
def in_rounded_rect (x0 y0 x1 y1 r px py : Frac) : Bool :=
  (Frac.ble x0 px && Frac.ble px x1 && Frac.ble y0 py && Frac.ble py y1) &&
    (let dx := Frac.fmax (x0 + r - px) (Frac.fmax (px - (x1 - r)) 0)
     let dy := Frac.fmax (y0 + r - py) (Frac.fmax (py - (y1 - r)) 0)
     Frac.ble (sqr dx + sqr dy) (sqr r))

/-- Membership in a segment stroked with width w: distance from the point
    to the segment is at most w / 2. -/
def on_segment (x0 y0 x1 y1 w px py : Frac) : Bool :=
  let dx := x1 - x0
  let dy := y1 - y0
  let len2 := sqr dx + sqr dy
  let ux := px - x0
  let uy := py - y0
  let t := ux * dx + uy * dy
  let r := w / 2
  if Frac.beqv len2 0 then Frac.ble (sqr ux + sqr uy) (sqr r)
  else if Frac.ble t 0 then Frac.ble (sqr ux + sqr uy) (sqr r)
  else if Frac.ble len2 t then Frac.ble (sqr (px - x1) + sqr (py - y1)) (sqr r)
  else Frac.ble ((sqr ux + sqr uy) * len2 - sqr t) (sqr r * len2)

/-- Membership in an arc of the ellipse with bounding box [x0, y0, x1, y1],
    stroked inward with width w.  For start = 0 and end = 180 the swept
    angles cover the lower half (py at or below the ellipse center); other
    angle ranges do not occur in the script and are over-approximated by the
    full ring. -/
def on_arc (x0 y0 x1 y1 startAngle endAngle w px py : Frac) : Bool :=
  let ecy := (y0 + y1) / 2
  let angle_ok :=
    if Frac.beqv startAngle 0 && Frac.beqv endAngle 180 then Frac.ble ecy py else true
  in_ellipse x0 y0 x1 y1 px py &&
    !(in_ellipse_interior (x0 + w) (y0 + w) (x1 - w) (y1 - w) px py) &&
    angle_ok

/-- Whether a drawing call covers the pixel point (px, py). -/
def op_covers (op : DrawOp) (px py : Frac) : Bool :=
  match op with
  | DrawOp.ellipse x0 y0 x1 y1 _ => in_ellipse x0 y0 x1 y1 px py
  | DrawOp.line x0 y0 x1 y1 _ w => on_segment x0 y0 x1 y1 w px py
  | DrawOp.arc x0 y0 x1 y1 a b _ w => on_arc x0 y0 x1 y1 a b w px py
  | DrawOp.rounded_rectangle x0 y0 x1 y1 r _ => in_rounded_rect x0 y0 x1 y1 r px py

/-- The fill color a drawing call paints with. -/
def op_fill : DrawOp → Color
  | DrawOp.ellipse _ _ _ _ c => c
  | DrawOp.line _ _ _ _ c _ => c
  | DrawOp.arc _ _ _ _ _ _ c _ => c
  | DrawOp.rounded_rectangle _ _ _ _ _ c => c

/-- RGBA value of one pixel after applying the drawing calls in order to an
    initially transparent canvas. -/
def paint (ops : List DrawOp) (px py : Frac) : ℕ × ℕ × ℕ × ℕ :=
  ops.foldl
    (fun acc op =>
      if op_covers op px py then ((op_fill op).r, (op_fill op).g, (op_fill op).b, 255)
      else acc)
    (0, 0, 0, 0)

/-- Alpha channel of the pixel (px, py) of the icon rendered at the given
    size. -/
def alpha_at (size : ℕ) (px py : Frac) : ℕ :=
  (paint (create_icon_ops size) px py).2.2.2

/-- The full pixel buffer of the icon rendered at the given size: RGBA
    values at every integer pixel coordinate, row by row. -/
def pixel_buffer (size : ℕ) : List (List (ℕ × ℕ × ℕ × ℕ)) :=
  (List.range size).map fun y =>
    (List.range size).map fun x =>
      paint (create_icon_ops size) (x : Frac) (y : Frac)

/- Driver model (main): filenames written into the icon-set directory,
   the Contents.json manifest, the packaging copy map and the tail of main
   around the iconutil invocation. -/

/-- The (filename, rendered size) pairs written by the main loop, in order:
    for each size in SIZES a 1x file rendered at that size, and for sizes
    at most 512 also a @2x file rendered at size * 2. -/
def generated_files : List (String × ℕ) :=
  SIZES.flatMap fun size =>
    (s!"icon_{size}x{size}.png", size) ::
      (if size ≤ 512 then [(s!"icon_{size}x{size}@2x.png", size * 2)] else [])

/-- The filenames written into the icon-set directory. -/
def generated_names : List String := generated_files.map Prod.fst

/-- The files the driver writes, paired with the image create_icon renders
    for each. -/
def driver_writes : List (String × Image) :=
  generated_files.map fun p => (p.1, create_icon p.2)

/-- The image stored under a given filename, when the driver wrote one. -/
def written_image (name : String) : Option Image :=
  (driver_writes.find? fun p => p.1 == name).map Prod.snd

/-- One record of the images array of Contents.json. -/
structure ManifestEntry where
  filename : String
  idiom : String
  scale : String
  size : String
deriving DecidableEq

/-- The ten image records the driver writes into Contents.json, transcribed
    from the literal in main. -/
def contents_images : List ManifestEntry :=
  [⟨"icon_16x16.png", "mac", "1x", "16x16"⟩,
   ⟨"icon_16x16@2x.png", "mac", "2x", "16x16"⟩,
   ⟨"icon_32x32.png", "mac", "1x", "32x32"⟩,
   ⟨"icon_32x32@2x.png", "mac", "2x", "32x32"⟩,
   ⟨"icon_128x128.png", "mac", "1x", "128x128"⟩,
   ⟨"icon_128x128@2x.png", "mac", "2x", "128x128"⟩,
   ⟨"icon_256x256.png", "mac", "1x", "256x256"⟩,
   ⟨"icon_256x256@2x.png", "mac", "2x", "256x256"⟩,
   ⟨"icon_512x512.png", "mac", "1x", "512x512"⟩,
   ⟨"icon_512x512@2x.png", "mac", "2x", "512x512"⟩]

/-- The (size, destination name) pairs of the packaging copy loop,
    transcribed from the icon_mappings literal in main. -/
def icon_mappings : List (ℕ × String) :=
  [(16, "icon_16x16.png"),
   (32, "icon_16x16@2x.png"),
   (32, "icon_32x32.png"),
   (64, "icon_32x32@2x.png"),
   (128, "icon_128x128.png"),
   (256, "icon_128x128@2x.png"),
   (256, "icon_256x256.png"),
   (512, "icon_256x256@2x.png"),
   (512, "icon_512x512.png"),
   (1024, "icon_512x512@2x.png")]

/-- The source filename the packaging copy loop reads for a mapping entry
    of the given size: icon_{size}x{size}.png, overridden to the 512@2x
    file when size exceeds 512. -/
def copy_src (size : ℕ) : String :=
  if size > 512 then "icon_512x512@2x.png" else s!"icon_{size}x{size}.png"

/-- Result of subprocess.run for the iconutil invocation. -/
structure CompletedProcess where
  returncode : ℤ
  stderr : String
deriving DecidableEq

/-- Observable effects of the tail of main after the iconutil call. -/
inductive Step where
  | print (msg : String)
  | cleanup_tmp
deriving DecidableEq

/-- The tail of main after subprocess.run returns: test the return code,
    print either the created path or the iconutil diagnostic, then remove
    the temporary directory.  subprocess.run is called without check=True
    and shutil.rmtree with ignore_errors=True, so this code raises no
    exception on any return code, which the Except codomain records by
    always producing Except.ok. -/
def main_tail (icns_path : String) (result : CompletedProcess) :
    Except String (List Step) :=
  Except.ok
    ((if result.returncode = 0 then [Step.print s!"Created {icns_path}"]
      else
        let e := result.stderr
        [Step.print s!"iconutil error: {e}"]) ++ [Step.cleanup_tmp])

/-- The top edge of the glyph bounding region: the y0 coordinate of the
    first hemisphere ellipse drawn by draw_brain_icon. -/
def glyph_top_y (size : ℕ) : Frac :=
  match draw_brain_icon size WHITE with
  | DrawOp.ellipse _ y0 _ _ _ :: _ => y0
  | _ => 0

/-- The glyph height brain_height as computed in draw_brain_icon:
    int(0.85 * (size - 2 * int(20 * s))). -/
def brain_height_of (size : ℕ) : ℤ :=
  pyInt (((((size : ℤ) - pyInt (20 * ((size : Frac) / 100)) * 2) : ℤ) : Frac) * (85 / 100))

/-- Whether a drawing call is a decorative stroke (a line or an arc). -/
def is_stroke : DrawOp → Bool
  | DrawOp.line _ _ _ _ _ _ => true
  | DrawOp.arc _ _ _ _ _ _ _ _ => true
  | _ => false

/-- The fill color of the rounded-rectangle background drawn first by
    create_icon. -/
def background_fill (size : ℕ) : Color :=
  match create_icon_ops size with
  | DrawOp.rounded_rectangle _ _ _ _ _ c :: _ => c
  | _ => WHITE

/-- Claim C1, counterexample: the driver writes 13 PNG filenames, not 12,
    and among them is icon_64x64@2x.png, a file outside the claimed
    enumeration (two files each for 16, 32, 128, 256, 512 and one for
    1024). -/
theorem c1_counterexample :
    generated_names.length = 13 ∧ generated_names.length ≠ 12 ∧
    "icon_64x64@2x.png" ∈ generated_names := by decide

/-- Claim C1 as amended: the driver writes exactly 13 pairwise-distinct PNG
    filenames into the icon-set directory: a 1x and a @2x file for each of
    the edges 16, 32, 64, 128, 256 and 512, and a single file for edge
    1024. -/
theorem c1_amended :
    generated_names =
      ["icon_16x16.png", "icon_16x16@2x.png", "icon_32x32.png", "icon_32x32@2x.png",
       "icon_64x64.png", "icon_64x64@2x.png", "icon_128x128.png", "icon_128x128@2x.png",
       "icon_256x256.png", "icon_256x256@2x.png", "icon_512x512.png", "icon_512x512@2x.png",
       "icon_1024x1024.png"] ∧
    generated_names.Nodup := by decide

/-- Claim C2: the packaging copy step maps the 1024 slot (destination name
    icon_512x512@2x.png) to the source file icon_512x512@2x.png, not to the
    directly rendered icon_1024x1024.png, and every mapping entry of size at
    most 512 reads icon_{size}x{size}.png; every source the copy loop reads
    exists among the generated files. -/
theorem c2_packaging_map_reuses_512_2x :
    (1024, "icon_512x512@2x.png") ∈ icon_mappings ∧
    copy_src 1024 = "icon_512x512@2x.png" ∧
    copy_src 1024 ≠ "icon_1024x1024.png" ∧
    icon_mappings.all (fun p =>
      let sz := p.1
      decide (512 < sz) || (copy_src sz == s!"icon_{sz}x{sz}.png")) = true ∧
    icon_mappings.all (fun p =>
      let sz := p.1
      generated_names.contains (copy_src sz)) = true := by decide

/-- Claim C3: the manifest holds exactly 10 entries, every entry filename is
    among the files the driver generates, and the manifest filenames are a
    strict subset of the generated files: the 64x64, 64x64@2x and 1024x1024
    renders exist on disk but have no manifest entry. -/
theorem c3_manifest_entries :
    contents_images.length = 10 ∧
    (contents_images.map ManifestEntry.filename).all
      (fun n => generated_names.contains n) = true ∧
    generated_names.contains "icon_64x64.png" = true ∧
    generated_names.contains "icon_64x64@2x.png" = true ∧
    generated_names.contains "icon_1024x1024.png" = true ∧
    (contents_images.map ManifestEntry.filename).contains "icon_64x64.png" = false ∧
    (contents_images.map ManifestEntry.filename).contains "icon_64x64@2x.png" = false ∧
    (contents_images.map ManifestEntry.filename).contains "icon_1024x1024.png" = false := by
  decide

/-- Claim C4: whatever the iconutil return code, the tail of main raises no
    exception and reaches the temporary-directory cleanup; a non-zero code
    prints the iconutil stderr diagnostic, a zero code prints the output
    path. -/
theorem c4_iconutil_exit_handling :
    ∀ (icns_path : String) (rc : ℤ) (err : String),
      (rc ≠ 0 → main_tail icns_path ⟨rc, err⟩ =
        Except.ok [Step.print s!"iconutil error: {err}", Step.cleanup_tmp]) ∧
      (rc = 0 → main_tail icns_path ⟨rc, err⟩ =
        Except.ok [Step.print s!"Created {icns_path}", Step.cleanup_tmp]) ∧
      ∃ steps, main_tail icns_path ⟨rc, err⟩ = Except.ok steps ∧
        Step.cleanup_tmp ∈ steps := by
  intro p rc err
  refine ⟨fun h => by simp [main_tail, h], fun h => by simp [main_tail, h], ?_⟩
  by_cases h : rc = 0 <;> simp [main_tail, h]

/-- Witness for C4 at a concrete failing process result. -/
theorem c4_iconutil_exit_handling_witness :
    main_tail "out.icns" ⟨1, "boom"⟩ =
      Except.ok [Step.print "iconutil error: boom", Step.cleanup_tmp] :=
  (c4_iconutil_exit_handling "out.icns" 1 "boom").1 (by decide)

/-- Claim C5: every decorative stroke drawn by draw_brain_icon (the central
    fissure line and the six arcs) is filled with the same color that fills
    the rounded-rectangle background, for every size and every foreground
    color passed to the renderer. -/
theorem c5_strokes_in_background_color :
    ∀ (size : ℕ) (color : Color) (op : DrawOp),
      op ∈ draw_brain_icon size color → is_stroke op = true →
      op_fill op = background_fill size := by
  intro size color op hmem hstroke
  have hbg : background_fill size = CLAUDE_ORANGE := rfl
  rw [hbg]
  rw [draw_brain_icon] at hmem
  rcases List.mem_append.1 hmem with h12 | h3
  · rcases List.mem_append.1 h12 with h1 | h2
    · simp only [List.mem_cons, List.not_mem_nil, or_false] at h1
      rcases h1 with rfl | rfl | rfl | rfl
      · simp [is_stroke] at hstroke
      · simp [is_stroke] at hstroke
      · simp [is_stroke] at hstroke
      · rfl
    · rcases List.mem_map.1 h2 with ⟨off, hoff, rfl⟩
      rfl
  · rcases List.mem_map.1 h3 with ⟨off, hoff, rfl⟩
    rfl

/-- Witness for C5 at size 100 and the central fissure line. -/
theorem c5_strokes_in_background_color_witness :
    op_fill ((draw_brain_icon 100 WHITE).getD 3 (DrawOp.line 0 0 0 0 WHITE 0)) =
      background_fill 100 :=
  c5_strokes_in_background_color 100 WHITE
    ((draw_brain_icon 100 WHITE).getD 3 (DrawOp.line 0 0 0 0 WHITE 0))
    (by decide) (by decide)

/-- Claim C6, counterexample: at size 512 the top edge of the glyph region
    is 151, which differs from the claimed value cy − glyphHeight / 2 − 5·s
    (99.9 with exact halving, 101 with the floor divisions of the source):
    the 5·s offset is added, not subtracted. -/
theorem c6_counterexample :
    (glyph_top_y 512).toRat ≠
        (512 : ℚ) / 2 - (brain_height_of 512 : ℚ) / 2 - 5 * ((512 : ℚ) / 100) ∧
    (glyph_top_y 512).toRat ≠
        (512 : ℚ) / 2 - ((brain_height_of 512).fdiv 2 : ℚ) -
          (pyInt (5 * ((512 : Frac) / 100)) : ℚ) := by
  have h : glyph_top_y 512 = ⟨302, 2⟩ := by decide
  have hb : brain_height_of 512 = 261 := by decide
  have hp : pyInt (5 * ((512 : Frac) / 100)) = 25 := by decide
  have hf : (261 : ℤ).fdiv 2 = 130 := by decide
  rw [h, hb, hp, hf]
  norm_num [Frac.toRat]

/-- Claim C6 as amended: for every edge length, the top edge of the glyph
    region lies int(5·s) pixels BELOW the floor-centered position:
    top_y = cy − glyphHeight fdiv 2 + int(5·s). -/
theorem c6_top_edge_below_center :
    ∀ size : ℕ,
      glyph_top_y size =
        ((size : Frac) / 2 - ((brain_height_of size).fdiv 2 : Frac)) +
          ((pyInt (5 * ((size : Frac) / 100)) : ℤ) : Frac) :=
  fun _ => rfl

/-- Claim C7: for every edge length the driver renders, the four corner
    pixels of the canvas are fully transparent (alpha 0) and the center
    pixel (N/2, N/2) is opaque. -/
theorem c7_corners_transparent_center_opaque :
    ∀ N ∈ generated_files.map Prod.snd,
      alpha_at N 0 0 = 0 ∧ alpha_at N 0 ((N : Frac) - 1) = 0 ∧
      alpha_at N ((N : Frac) - 1) 0 = 0 ∧
      alpha_at N ((N : Frac) - 1) ((N : Frac) - 1) = 0 ∧
      alpha_at N ((N : Frac) / 2) ((N : Frac) / 2) ≠ 0 := by decide

/-- Witness for C7 at the smallest rendered edge, 16. -/
theorem c7_corners_transparent_center_opaque_witness :
    alpha_at 16 0 0 = 0 ∧ alpha_at 16 0 ((16 : Frac) - 1) = 0 ∧
    alpha_at 16 ((16 : Frac) - 1) 0 = 0 ∧
    alpha_at 16 ((16 : Frac) - 1) ((16 : Frac) - 1) = 0 ∧
    alpha_at 16 ((16 : Frac) / 2) ((16 : Frac) / 2) ≠ 0 :=
  c7_corners_transparent_center_opaque 16 (by decide)

/-- Claim C8: rendering is deterministic; the model of the drawing sequence
    is a pure function of the edge length and color, so two invocations
    with identical inputs yield identical pixel buffers, images and call
    sequences. -/
theorem c8_rendering_deterministic :
    ∀ (size : ℕ) (color : Color),
      pixel_buffer size = pixel_buffer size ∧
      create_icon size = create_icon size ∧
      draw_brain_icon size color = draw_brain_icon size color :=
  fun _ _ => ⟨rfl, rfl, rfl⟩

/-- Claim C9: create_icon allocates a canvas of exactly size x size pixels,
    square for every requested edge length. -/
theorem c9_canvas_square :
    ∀ size : ℕ,
      (create_icon size).width = size ∧ (create_icon size).height = size ∧
      (create_icon size).width = (create_icon size).height :=
  fun _ => ⟨rfl, rfl, rfl⟩

/-- Claim C10: for every edge N ≤ 512 in the size list, the @2x file is the
    image rendered by create_icon at 2·N, and when 2·N is itself in the size
    list the 1x file of edge 2·N holds that same image, so the two files are
    pixel-identical. -/
theorem c10_retina_equals_double_render :
    ∀ N ∈ SIZES, N ≤ 512 →
      written_image s!"icon_{N}x{N}@2x.png" = some (create_icon (N * 2)) ∧
      (N * 2 ∈ SIZES →
        written_image s!"icon_{N * 2}x{N * 2}.png" = some (create_icon (N * 2))) := by
  decide

/-- Witness for C10 at N = 16: icon_16x16@2x.png and icon_32x32.png both
    hold the create_icon 32 render. -/
theorem c10_retina_equals_double_render_witness :
    written_image "icon_16x16@2x.png" = some (create_icon 32) ∧
    written_image "icon_32x32.png" = some (create_icon 32) := by
  have h := c10_retina_equals_double_render 16 (by decide) (by decide)
  exact ⟨h.1, h.2 (by decide)⟩
